import Mathlib

/-!
Shallow embedding of the Clinical Interaction Pipeline of the PAJR
care-coordination application: the data model, the analysis adapter
(analyzePatientInput), and the App-level state updaters (optimistic
append, insight application, non-text acknowledgment, realtime merge)
in both orchestrator revisions found in the source.

TypeScript string enums and string unions erase to plain strings at
runtime and the source performs unchecked casts on them, so the
corresponding fields are modelled as String.
-/

set_option autoImplicit false

namespace PAJR

/-- Message entity (types.ts): id, sender role, content payload, optional
file name, timestamp, and content kind, all runtime strings. -/
structure Message where
  id : String
  sender : String
  content : String
  fileName : Option String
  timestamp : String
  type : String
  deriving DecidableEq

/-- VitalSign entity (types.ts): type tag, numeric value, unit, timestamp. -/
structure VitalSign where
  type : String
  value : ℚ
  unit : String
  timestamp : String
  deriving DecidableEq

/-- ClinicalInsight entity (types.ts). -/
structure ClinicalInsight where
  summary : String
  riskLevel : String
  confidenceScore : ℚ
  reasoning : List String
  themes : List String
  missingData : List String
  clinicalActionSuggestion : String
  deriving DecidableEq

/-- Patient record (types.ts), restricted to the fields the pipeline
reads or writes. -/
structure Patient where
  id : String
  name : String
  age : Nat
  assignedDoctorId : String
  condition : List String
  lastInteraction : String
  riskStatus : String
  vitalsHistory : List VitalSign
  messages : List Message
  latestInsight : Option ClinicalInsight
  isFlagged : Bool
  deriving DecidableEq

/-- User entity (types.ts), restricted to the fields the handlers read. -/
structure User where
  id : String
  name : String
  role : String
  phoneNumber : String
  deriving DecidableEq

/-- RiskLevel enum values (types.ts). -/
def riskLevelValues : List String := ["LOW", "MEDIUM", "HIGH", "CRITICAL"]

/-- VitalSign type vocabulary (types.ts). -/
def vitalTypeVocabulary : List String :=
  ["BP_SYSTOLIC", "BP_DIASTOLIC", "GLUCOSE", "SPO2", "HEART_RATE", "WEIGHT",
   "TEMP", "URINE_OUTPUT"]

/-! ## Analysis adapter (geminiService, src/unnamed/part_004)

The collaborator response is JSON parsed into a raw object; the adapter
maps it field by field onto the domain types. A raised error, timeout or
malformed JSON is caught and replaced by the deterministic fallback. -/

/-- Raw extracted vital as parsed from the collaborator JSON; the type
tag is whatever string the response carried. -/
structure RawVital where
  type : String
  value : ℚ
  unit : String
  deriving DecidableEq

/-- Raw collaborator response object after JSON parsing. Fields the
adapter guards with a JavaScript default are Option valued. -/
structure RawAnalysisData where
  summary : String
  riskLevel : String
  confidenceScore : ℚ
  themes : Option (List String)
  reasoning : List String
  missingData : Option (List String)
  extractedVitals : Option (List RawVital)
  clinicalActionSuggestion : Option String
  suggestedResponse : Option String
  deriving DecidableEq

/-- Result triple of analyzePatientInput. -/
structure AnalysisResult where
  insight : ClinicalInsight
  vitals : List VitalSign
  suggestedResponse : String
  deriving DecidableEq

/-- JavaScript `v || d` on a possibly-absent string: absent and the empty
string are falsy, any other string is kept. -/
def jsOrString (v : Option String) (d : String) : String :=
  match v with
  | none => d
  | some s => if s = "" then d else s

/-- JavaScript `v || []` on a possibly-absent array: only absence is
falsy (an empty array is truthy and kept). -/
def jsOrList {α : Type} (v : Option (List α)) : List α := v.getD []

/-- Stamping of a raw extracted vital with the analysis-completion
timestamp (part_004 lines 93 to 96). -/
def stampVital (now : String) (v : RawVital) : VitalSign :=
  { type := v.type, value := v.value, unit := v.unit, timestamp := now }

/-- Embedding of analyzePatientInput (part_004 lines 45 to 121). The
suspended remote call is abstracted as the `collab` argument: `.ok data`
is a parsed response, `.error ()` is any raised error, timeout or
malformed response. `now` is the ISO timestamp taken at analysis
completion. -/
def analyzePatientInput (collab : Except Unit RawAnalysisData) (now : String) :
    AnalysisResult :=
  match collab with
  | Except.ok data =>
      { insight :=
          { summary := data.summary
            riskLevel := data.riskLevel
            confidenceScore := data.confidenceScore
            themes := jsOrList data.themes
            reasoning := data.reasoning
            missingData := jsOrList data.missingData
            clinicalActionSuggestion := jsOrString data.clinicalActionSuggestion "Monitor" }
        vitals := (jsOrList data.extractedVitals).map (stampVital now)
        suggestedResponse := jsOrString data.suggestedResponse
          "Received. Updating your care log." }
  | Except.error _ =>
      { insight :=
          { summary := "Error analyzing input. Manual review required."
            riskLevel := "MEDIUM"
            confidenceScore := 0
            themes := ["System Error"]
            reasoning := ["AI System Error - Fallback"]
            missingData := ["Complete analysis failed"]
            clinicalActionSuggestion := "Manual Review" }
        vitals := []
        suggestedResponse :=
          "We have received your message. A care coordinator will review it shortly." }

/-! ## App orchestrators (src/unnamed/part_005)

The file carries two revisions of the App component. The first
(lines 94 to 286, Supabase-integrated) performs every state change as a
functional update over the previous state. The second (lines 408 to 584)
captures a snapshot of the target record before the suspended analysis
call and writes back records computed from that snapshot. The shared
state is the patient list held by the App component. `Date.now()` at a
given program point is modelled as a Nat argument. -/

/-- Message constructed by handleMessageSend (first revision lines 151 to
158, second revision lines 455 to 462): the id is the decimal string of
the millisecond clock at construction time. -/
def mkNewMessage (clock : Nat) (senderRole content : String)
    (fileName : Option String) (now type : String) : Message :=
  { id := toString clock
    sender := senderRole
    content := content
    fileName := fileName
    timestamp := now
    type := type }

/-- SYSTEM reply message (first revision lines 194 to 200, second
revision lines 490 to 496 and 517 to 523): the id is the decimal string
of the millisecond clock at construction time plus one. -/
def mkSystemMessage (clock : Nat) (content now : String) : Message :=
  { id := toString (clock + 1)
    sender := "SYSTEM"
    content := content
    fileName := none
    timestamp := now
    type := "TEXT" }

/-- Acknowledgment text for non-text patient uploads (second revision
line 520). -/
def nonTextAckContent (type : String) : String :=
  if type = "DOCUMENT" then "Document received and filed in Clinical Records."
  else "Image received. Adding to clinical record."

/-- Per-record body of the optimistic update of the first revision
(lines 161 to 166): append the new message and refresh lastInteraction
on the target record, leave every other record as is. -/
def optimisticRecord (targetId : String) (newMessage : Message) (now : String)
    (p : Patient) : Patient :=
  if p.id = targetId then
    { p with messages := p.messages ++ [newMessage], lastInteraction := now }
  else p

/-- Optimistic state update of the first revision (lines 161 to 166). -/
def optimisticAppend (targetId : String) (newMessage : Message) (now : String)
    (prev : List Patient) : List Patient :=
  prev.map (optimisticRecord targetId newMessage now)

/-- Per-record body of the insight application of the first revision
(lines 203 to 215): append the SYSTEM reply, overwrite risk status and
insight, append the extracted vitals, and recompute the flag. -/
def applyInsightRecord (targetId : String) (systemMsg : Message)
    (insight : ClinicalInsight) (vitals : List VitalSign) (p : Patient) : Patient :=
  if p.id = targetId then
    { p with
      messages := p.messages ++ [systemMsg]
      riskStatus := insight.riskLevel
      latestInsight := some insight
      vitalsHistory := p.vitalsHistory ++ vitals
      isFlagged := insight.riskLevel == "HIGH" || insight.riskLevel == "CRITICAL" }
  else p

/-- Insight application of the first revision (lines 203 to 215). -/
def applyInsight (targetId : String) (systemMsg : Message)
    (insight : ClinicalInsight) (vitals : List VitalSign)
    (prev : List Patient) : List Patient :=
  prev.map (applyInsightRecord targetId systemMsg insight vitals)

/-- Per-record body of the realtime subscription callback (first
revision lines 109 to 122): skip records other than the active patient,
discard the event when the id is already present, otherwise append. -/
def realtimeMergeRecord (activePatientId : String) (newMsg : Message)
    (p : Patient) : Patient :=
  if p.id ≠ activePatientId then p
  else if p.messages.any (fun m => m.id == newMsg.id) then p
  else { p with messages := p.messages ++ [newMsg] }

/-- Realtime onInsert merge (first revision lines 104 to 128). -/
def realtimeInsert (activePatientId : String) (newMsg : Message)
    (prev : List Patient) : List Patient :=
  prev.map (realtimeMergeRecord activePatientId newMsg)

/-- Whole-record replacement keyed by patient id, the write-back shape of
the second revision (lines 471, 507 and 528). -/
def replaceById (targetId : String) (newP : Patient) (prev : List Patient) :
    List Patient :=
  prev.map (fun p => if p.id = targetId then newP else p)

/-- Snapshot-based optimistic record of the second revision (lines 465
to 469). -/
def mkUpdatedPatient (targetPatient : Patient) (newMessage : Message)
    (now : String) : Patient :=
  { targetPatient with
    messages := targetPatient.messages ++ [newMessage]
    lastInteraction := now }

/-- Snapshot-based post-analysis record of the second revision (lines
498 to 505): built from updatedPatient, not from the current state. -/
def mkFinalPatient (updatedPatient : Patient) (systemResponse : Message)
    (insight : ClinicalInsight) (vitals : List VitalSign) : Patient :=
  { updatedPatient with
    messages := updatedPatient.messages ++ [systemResponse]
    riskStatus := insight.riskLevel
    latestInsight := some insight
    vitalsHistory := updatedPatient.vitalsHistory ++ vitals
    isFlagged := insight.riskLevel == "HIGH" || insight.riskLevel == "CRITICAL" }

/-- Snapshot-based acknowledgment record for non-text uploads in the
second revision (lines 524 to 527). -/
def mkAckPatient (updatedPatient : Patient) (systemResponse : Message) : Patient :=
  { updatedPatient with
    messages := updatedPatient.messages ++ [systemResponse] }

/-- Target id resolution of the first revision (line 148):
`activePatientId || (currentUser?.role === 'PATIENT' ? currentUser.id : null)`. -/
def resolveTargetId (activePatientId : Option String) (currentUser : Option User) :
    Option String :=
  match activePatientId with
  | some tid => some tid
  | none =>
      match currentUser with
      | some u => if u.role = "PATIENT" then some u.id else none
      | none => none

/-- Active patient resolution of the second revision (lines 420 to 422):
a logged-in patient always maps to record P-1024, a doctor maps through
activePatientId, otherwise none. -/
def activePatientV2 (currentUser : Option User) (activePatientId : Option String)
    (patients : List Patient) : Option Patient :=
  match currentUser with
  | some u =>
      if u.role = "PATIENT" then patients.find? (fun p => p.id = "P-1024")
      else
        match activePatientId with
        | some aid => patients.find? (fun p => p.id = aid)
        | none => none
  | none => none

/-- Outcome of a submit call as observed by the caller. The source
handlers return void and raise nothing; `silentNoOp` models the bare
`return` taken when no target resolves, `accepted` models a performed
optimistic append. The `rejected` constructor is the vocabulary needed to
state the specified InvalidPatient rejection; no source path produces it. -/
inductive SubmitOutcome where
  | silentNoOp
  | rejected (err : String)
  | accepted (m : Message)
  deriving DecidableEq

/-- Synchronous prefix of handleMessageSend in the second revision
(lines 449 to 471): resolve the target, construct the message, build the
snapshot record and write it back. -/
def submitV2 (currentUser : Option User) (activePatientId : Option String)
    (content type senderRole : String) (fileName : Option String)
    (clock : Nat) (now : String) (patients : List Patient) :
    List Patient × SubmitOutcome :=
  match activePatientV2 currentUser activePatientId patients with
  | none => (patients, SubmitOutcome.silentNoOp)
  | some targetPatient =>
      let newMessage := mkNewMessage clock senderRole content fileName now type
      let updatedPatient := mkUpdatedPatient targetPatient newMessage now
      (replaceById targetPatient.id updatedPatient patients,
        SubmitOutcome.accepted newMessage)

/-- Complete run of handleMessageSend in the first revision (lines 147 to
238) with no interleaved updates: optimistic append, then for a patient
TEXT message the analysis call (with the stale `patients` lookup of line
185) followed by the insight application; for a patient non-text message
only the processing flag is cleared after the delay, no message is
appended. `clock` is Date.now() at submit, `clock2` at the SYSTEM reply
construction after the await. -/
def handleMessageSendV1Run (activePatientId : Option String)
    (currentUser : Option User) (content type senderRole : String)
    (fileName : Option String) (clock clock2 : Nat) (now : String)
    (collab : Except Unit RawAnalysisData) (patients : List Patient) :
    List Patient :=
  match resolveTargetId activePatientId currentUser with
  | none => patients
  | some targetId =>
      let newMessage := mkNewMessage clock senderRole content fileName now type
      let st1 := optimisticAppend targetId newMessage now patients
      if senderRole = "DOCTOR" then st1
      else if type = "TEXT" then
        match patients.find? (fun p => p.id = targetId) with
        | none => st1
        | some _ =>
            let res := analyzePatientInput collab now
            let systemMsg := mkSystemMessage clock2 res.suggestedResponse now
            applyInsight targetId systemMsg res.insight res.vitals st1
      else st1

/-- Complete run of handleMessageSend in the second revision (lines 449
to 531) with no interleaved updates: snapshot write-back of the
optimistic record, then for a patient TEXT message the insight record,
and for a non-text patient message the delay-then-acknowledge record. -/
def handleMessageSendV2Run (currentUser : Option User)
    (activePatientId : Option String) (content type senderRole : String)
    (fileName : Option String) (clock clock2 : Nat) (now : String)
    (collab : Except Unit RawAnalysisData) (patients : List Patient) :
    List Patient :=
  match activePatientV2 currentUser activePatientId patients with
  | none => patients
  | some targetPatient =>
      let newMessage := mkNewMessage clock senderRole content fileName now type
      let updatedPatient := mkUpdatedPatient targetPatient newMessage now
      let st1 := replaceById targetPatient.id updatedPatient patients
      if senderRole = "DOCTOR" then st1
      else if type = "TEXT" then
        let res := analyzePatientInput collab now
        let systemResponse := mkSystemMessage clock2 res.suggestedResponse now
        let finalPatient := mkFinalPatient updatedPatient systemResponse res.insight res.vitals
        replaceById targetPatient.id finalPatient st1
      else
        let systemResponse := mkSystemMessage clock2 (nonTextAckContent type) now
        let finalPatient := mkAckPatient updatedPatient systemResponse
        replaceById targetPatient.id finalPatient st1

/-! ## Concrete fixtures

Concrete records used by witnesses and counterexamples, shaped after the
mock data of part_005. -/

/-- Welcome message of the mock record P-1024. -/
def welcomeMsg : Message :=
  { id := "m1"
    sender := "SYSTEM"
    content := "Welcome to PAJR. Please share your readings via WhatsApp or here."
    fileName := none
    timestamp := "t0"
    type := "TEXT" }

/-- Sample glucose reading from the mock vitals history. -/
def glucoseReading : VitalSign :=
  { type := "GLUCOSE", value := 140, unit := "mg/dL", timestamp := "2023-10-22T08:00:00Z" }

/-- Mock patient record P-1024. -/
def p1024 : Patient :=
  { id := "P-1024"
    name := "Sarah Devi"
    age := 58
    assignedDoctorId := "D-001"
    condition := ["Type 2 Diabetes", "Hypertension"]
    lastInteraction := "t0"
    riskStatus := "MEDIUM"
    vitalsHistory := [glucoseReading]
    messages := [welcomeMsg]
    latestInsight := none
    isFlagged := false }

/-- Second mock patient record, assigned to the same doctor. -/
def p5050 : Patient :=
  { id := "P-5050"
    name := "Anil Gupta"
    age := 62
    assignedDoctorId := "D-001"
    condition := ["Cardiac Follow-up"]
    lastInteraction := "t0"
    riskStatus := "CRITICAL"
    vitalsHistory := []
    messages := []
    latestInsight := none
    isFlagged := true }

/-- Logged-in patient user. -/
def patientUser : User :=
  { id := "P-1024", name := "Sarah Devi", role := "PATIENT", phoneNumber := "98" }

/-- Logged-in doctor user. -/
def doctorUser : User :=
  { id := "D-001", name := "Arun Verma", role := "DOCTOR", phoneNumber := "99" }

/-- Number of SYSTEM messages in a message sequence. -/
def countSystem (msgs : List Message) : Nat :=
  (msgs.filter (fun m => m.sender == "SYSTEM")).length

/-! ## Interleaving scenario for the snapshot write-back

The second revision captures updatedPatient before the suspended
analysis call and writes back finalPatient computed from that snapshot.
The states below replay submit, then a realtime insert arriving while
the analysis is in flight, then the insight write-back. -/

/-- Patient text message submitted at clock 100. -/
def c2UserMsg : Message := mkNewMessage 100 "PATIENT" "sugar 220 this morning" none "t1" "TEXT"

/-- Snapshot record captured by the second revision before the await. -/
def c2Updated : Patient := mkUpdatedPatient p1024 c2UserMsg "t1"

/-- State after the optimistic write-back of the snapshot. -/
def c2St1 : List Patient := replaceById "P-1024" c2Updated [p1024]

/-- Realtime message that arrives while the analysis call is in flight. -/
def c2RtMsg : Message :=
  { id := "rt-77"
    sender := "DOCTOR"
    content := "How are you feeling?"
    fileName := none
    timestamp := "t2"
    type := "TEXT" }

/-- State after the realtime merge of the in-flight message. -/
def c2St2 : List Patient := realtimeInsert "P-1024" c2RtMsg c2St1

/-- Analysis result used by the insight write-back. -/
def c2Res : AnalysisResult := analyzePatientInput (Except.error ()) "t3"

/-- SYSTEM reply constructed after the await at clock 200. -/
def c2Sys : Message := mkSystemMessage 200 c2Res.suggestedResponse "t3"

/-- State after the snapshot-based insight write-back of the second
revision: the record is replaced by finalPatient computed from the
pre-analysis snapshot. -/
def c2St3 : List Patient :=
  replaceById "P-1024" (mkFinalPatient c2Updated c2Sys c2Res.insight c2Res.vitals) c2St2

/-! ## Helper lemmas -/

/-- Pointwise description of a map-shaped state update: if every record
is related to its image, the state is Forall₂ related to the updated
state. -/
theorem forall₂_map_self {r : Patient → Patient → Prop} (f : Patient → Patient)
    (h : ∀ p, r p (f p)) : ∀ st : List Patient, List.Forall₂ r st (st.map f)
  | [] => List.Forall₂.nil
  | p :: ps => List.Forall₂.cons (h p) (forall₂_map_self f h ps)

/-- Idempotence of the per-record realtime merge body. -/
theorem realtimeMergeRecord_idem (aid : String) (m : Message) (p : Patient) :
    realtimeMergeRecord aid m (realtimeMergeRecord aid m p)
      = realtimeMergeRecord aid m p := by
  unfold realtimeMergeRecord
  by_cases hid : p.id ≠ aid
  · simp [hid]
  · by_cases hdup : p.messages.any (fun x => x.id == m.id)
    · simp [hid, hdup]
    · simp [hid, hdup, List.any_append]

/-! ## Claim C1 : analysis fallback determinism -/

/-- Claim C1, counterexample: on collaborator failure the fallback
reasoning is the string "AI System Error - Fallback" and the fallback
missingData is "Complete analysis failed", not the values stated in the
claim ("Analysis failed — fallback" and "Complete analysis unavailable"). -/
theorem c1_fallback_strings_counterexample :
    (analyzePatientInput (Except.error ()) "2024-01-01T00:00:00Z").insight.reasoning
        = ["AI System Error - Fallback"] ∧
    (analyzePatientInput (Except.error ()) "2024-01-01T00:00:00Z").insight.reasoning
        ≠ ["Analysis failed — fallback"] ∧
    (analyzePatientInput (Except.error ()) "2024-01-01T00:00:00Z").insight.missingData
        = ["Complete analysis failed"] ∧
    (analyzePatientInput (Except.error ()) "2024-01-01T00:00:00Z").insight.missingData
        ≠ ["Complete analysis unavailable"] := by
  decide

/-- Claim C1, amended: on every collaborator failure analyzePatientInput
returns (rather than raising) the deterministic fallback with riskLevel
MEDIUM, confidenceScore 0, themes ["System Error"], reasoning
["AI System Error - Fallback"], missingData ["Complete analysis failed"],
clinicalActionSuggestion "Manual Review", a fixed non-empty neutral
suggestedResponse, and an empty vitals list. -/
theorem c1_fallback_deterministic (now : String) :
    (analyzePatientInput (Except.error ()) now).insight.riskLevel = "MEDIUM" ∧
    (analyzePatientInput (Except.error ()) now).insight.confidenceScore = 0 ∧
    (analyzePatientInput (Except.error ()) now).insight.themes = ["System Error"] ∧
    (analyzePatientInput (Except.error ()) now).insight.reasoning
      = ["AI System Error - Fallback"] ∧
    (analyzePatientInput (Except.error ()) now).insight.missingData
      = ["Complete analysis failed"] ∧
    (analyzePatientInput (Except.error ()) now).insight.clinicalActionSuggestion
      = "Manual Review" ∧
    (analyzePatientInput (Except.error ()) now).suggestedResponse
      = "We have received your message. A care coordinator will review it shortly." ∧
    (analyzePatientInput (Except.error ()) now).suggestedResponse ≠ "" ∧
    (analyzePatientInput (Except.error ()) now).vitals = [] := by
  refine ⟨rfl, rfl, rfl, rfl, rfl, rfl, rfl, ?_, rfl⟩
  show "We have received your message. A care coordinator will review it shortly." ≠ ""
  decide

/-- Claim C1, witness: the fallback result at a concrete timestamp. -/
theorem c1_fallback_deterministic_witness :
    (analyzePatientInput (Except.error ()) "t").insight.riskLevel = "MEDIUM" ∧
    (analyzePatientInput (Except.error ()) "t").insight.confidenceScore = 0 ∧
    (analyzePatientInput (Except.error ()) "t").insight.themes = ["System Error"] ∧
    (analyzePatientInput (Except.error ()) "t").insight.reasoning
      = ["AI System Error - Fallback"] ∧
    (analyzePatientInput (Except.error ()) "t").insight.missingData
      = ["Complete analysis failed"] ∧
    (analyzePatientInput (Except.error ()) "t").insight.clinicalActionSuggestion
      = "Manual Review" ∧
    (analyzePatientInput (Except.error ()) "t").suggestedResponse
      = "We have received your message. A care coordinator will review it shortly." ∧
    (analyzePatientInput (Except.error ()) "t").suggestedResponse ≠ "" ∧
    (analyzePatientInput (Except.error ()) "t").vitals = [] :=
  c1_fallback_deterministic "t"

/-! ## Claim C2 : message sequence preservation -/

/-- Claim C2, counterexample: a realtime message merged while the
analysis call of the second revision is in flight is present before the
insight write-back and absent afterwards, because the write-back replaces
the record with a value computed from the pre-analysis snapshot. -/
theorem c2_lost_message_counterexample :
    c2RtMsg ∈ (c2St2.headD p1024).messages ∧
    c2RtMsg ∉ (c2St3.headD p1024).messages := by
  decide

/-- Claim C2, amended: every state updater that recomputes from the
previous state preserves each message sequence as a subsequence (the
optimistic append and insight application of the first revision and the
realtime merge); only the snapshot write-back of the second revision can
drop a concurrently merged message. -/
theorem c2_functional_steps_preserve_messages (tid aid : String) (m rm sys : Message)
    (now : String) (ins : ClinicalInsight) (vs : List VitalSign) (st : List Patient) :
    List.Forall₂ (fun p q => List.Sublist p.messages q.messages) st
      (optimisticAppend tid m now st) ∧
    List.Forall₂ (fun p q => List.Sublist p.messages q.messages) st
      (applyInsight tid sys ins vs st) ∧
    List.Forall₂ (fun p q => List.Sublist p.messages q.messages) st
      (realtimeInsert aid rm st) := by
  refine ⟨forall₂_map_self _ ?_ st, forall₂_map_self _ ?_ st, forall₂_map_self _ ?_ st⟩
  · intro p
    unfold optimisticRecord
    by_cases h : p.id = tid <;> simp [h]
  · intro p
    unfold applyInsightRecord
    by_cases h : p.id = tid <;> simp [h]
  · intro p
    unfold realtimeMergeRecord
    by_cases h : p.id ≠ aid
    · simp [h]
    · by_cases hdup : p.messages.any (fun x => x.id == rm.id) <;> simp [h, hdup]

/-- Claim C2, witness: preservation of the message sequences across the
three functional updaters at a concrete state. -/
theorem c2_functional_steps_preserve_messages_witness :
    List.Forall₂ (fun p q => List.Sublist p.messages q.messages) [p1024, p5050]
      (optimisticAppend "P-1024" c2UserMsg "t1" [p1024, p5050]) ∧
    List.Forall₂ (fun p q => List.Sublist p.messages q.messages) [p1024, p5050]
      (applyInsight "P-1024" c2Sys c2Res.insight c2Res.vitals [p1024, p5050]) ∧
    List.Forall₂ (fun p q => List.Sublist p.messages q.messages) [p1024, p5050]
      (realtimeInsert "P-1024" c2RtMsg [p1024, p5050]) :=
  c2_functional_steps_preserve_messages "P-1024" "P-1024" c2UserMsg c2RtMsg c2Sys "t1"
    c2Res.insight c2Res.vitals [p1024, p5050]

/-! ## Claim C3 : success path validation -/

/-- Raw collaborator response whose risk level and extracted vital type
lie outside the fixed vocabularies. -/
def c3Raw : RawAnalysisData :=
  { summary := "Patient reports a lab value."
    riskLevel := "UNKNOWN_LEVEL"
    confidenceScore := 1
    themes := some ["Lab Report"]
    reasoning := ["Patient supplied a reading."]
    missingData := none
    extractedVitals := some [{ type := "CHOLESTEROL", value := 190, unit := "mg/dL" }]
    clinicalActionSuggestion := none
    suggestedResponse := some "Noted your reading." }

/-- Claim C3, counterexample: the success path performs no runtime
validation: a risk level outside the four known levels is returned
verbatim, and a vital whose type is outside the fixed vocabulary is kept
in the returned vitals list instead of being dropped. -/
theorem c3_no_validation_counterexample :
    (analyzePatientInput (Except.ok c3Raw) "t").insight.riskLevel = "UNKNOWN_LEVEL" ∧
    "UNKNOWN_LEVEL" ∉ riskLevelValues ∧
    stampVital "t" { type := "CHOLESTEROL", value := 190, unit := "mg/dL" }
      ∈ (analyzePatientInput (Except.ok c3Raw) "t").vitals ∧
    "CHOLESTEROL" ∉ vitalTypeVocabulary := by
  decide

/-- Claim C3, amended: on the success path the risk level string of the
response is passed through without any runtime check, and no extracted
vital is dropped: every parsed vital appears in the result, stamped with
the analysis-completion timestamp, and the count is preserved; no error
is raised for an off-vocabulary vital. -/
theorem c3_success_passthrough (data : RawAnalysisData) (now : String) :
    (analyzePatientInput (Except.ok data) now).insight.riskLevel = data.riskLevel ∧
    ((analyzePatientInput (Except.ok data) now).vitals).length
      = (jsOrList data.extractedVitals).length ∧
    ∀ v, v ∈ jsOrList data.extractedVitals →
      stampVital now v ∈ (analyzePatientInput (Except.ok data) now).vitals := by
  refine ⟨rfl, by simp [analyzePatientInput], ?_⟩
  intro v hv
  simp only [analyzePatientInput]
  exact List.mem_map_of_mem (stampVital now) hv

/-- Claim C3, witness: passthrough of the off-vocabulary response. -/
theorem c3_success_passthrough_witness :
    (analyzePatientInput (Except.ok c3Raw) "t").insight.riskLevel = c3Raw.riskLevel ∧
    stampVital "t" { type := "CHOLESTEROL", value := 190, unit := "mg/dL" }
      ∈ (analyzePatientInput (Except.ok c3Raw) "t").vitals :=
  ⟨(c3_success_passthrough c3Raw "t").1,
   (c3_success_passthrough c3Raw "t").2.2
     { type := "CHOLESTEROL", value := 190, unit := "mg/dL" } (by decide)⟩

/-! ## Claim C5 : flag consistency -/

/-- Claim C5: immediately after an insight application, in either
revision, the risk status equals the riskLevel of the insight regardless
of the previous status (a later LOW insight downgrades a prior HIGH),
and the flag holds exactly when that level is HIGH or CRITICAL. -/
theorem c5_flag_consistency (tid : String) (sys : Message) (ins : ClinicalInsight)
    (vs : List VitalSign) (p up : Patient) (h : p.id = tid) :
    (applyInsightRecord tid sys ins vs p).riskStatus = ins.riskLevel ∧
    ((applyInsightRecord tid sys ins vs p).isFlagged = true ↔
      ins.riskLevel = "HIGH" ∨ ins.riskLevel = "CRITICAL") ∧
    (mkFinalPatient up sys ins vs).riskStatus = ins.riskLevel ∧
    ((mkFinalPatient up sys ins vs).isFlagged = true ↔
      ins.riskLevel = "HIGH" ∨ ins.riskLevel = "CRITICAL") := by
  refine ⟨?_, ?_, rfl, ?_⟩
  · simp [applyInsightRecord, h]
  · simp [applyInsightRecord, h]
  · simp [mkFinalPatient]

/-- Claim C5, witness: a LOW insight applied to the flagged CRITICAL
record downgrades the status and clears the flag. -/
theorem c5_flag_consistency_witness :
    (applyInsightRecord "P-5050" c2Sys
        { summary := "Stable."
          riskLevel := "LOW"
          confidenceScore := 1
          reasoning := ["No symptoms reported."]
          themes := ["Recovery"]
          missingData := []
          clinicalActionSuggestion := "Continue standard monitoring." } [] p5050).riskStatus
      = "LOW" ∧
    ((applyInsightRecord "P-5050" c2Sys
        { summary := "Stable."
          riskLevel := "LOW"
          confidenceScore := 1
          reasoning := ["No symptoms reported."]
          themes := ["Recovery"]
          missingData := []
          clinicalActionSuggestion := "Continue standard monitoring." } [] p5050).isFlagged = true ↔
      ("LOW" : String) = "HIGH" ∨ ("LOW" : String) = "CRITICAL") :=
  ⟨(c5_flag_consistency "P-5050" c2Sys
      { summary := "Stable.", riskLevel := "LOW", confidenceScore := 1,
        reasoning := ["No symptoms reported."], themes := ["Recovery"],
        missingData := [], clinicalActionSuggestion := "Continue standard monitoring." }
      [] p5050 p5050 rfl).1,
   (c5_flag_consistency "P-5050" c2Sys
      { summary := "Stable.", riskLevel := "LOW", confidenceScore := 1,
        reasoning := ["No symptoms reported."], themes := ["Recovery"],
        missingData := [], clinicalActionSuggestion := "Continue standard monitoring." }
      [] p5050 p5050 rfl).2.1⟩

/-! ## Claim C4 : realtime merge idempotence -/

/-- Claim C4: delivering the same onInsert event twice yields exactly the
message sequences of delivering it once, and on a record of the active
patient whose sequence does not yet hold the id, the event is appended at
the end. -/
theorem c4_onInsert_idempotent (aid : String) (m : Message) (st : List Patient) :
    realtimeInsert aid m (realtimeInsert aid m st) = realtimeInsert aid m st ∧
    ∀ p : Patient, p.id = aid →
      p.messages.any (fun x => x.id == m.id) = false →
      realtimeMergeRecord aid m p = { p with messages := p.messages ++ [m] } := by
  constructor
  · unfold realtimeInsert
    rw [List.map_map]
    exact List.map_congr_left (fun p _ => realtimeMergeRecord_idem aid m p)
  · intro p hid hdup
    simp [realtimeMergeRecord, hid, hdup]

/-- Claim C4, witness: idempotence and fresh append at a concrete record
and event. -/
theorem c4_onInsert_idempotent_witness :
    realtimeInsert "P-1024" (mkNewMessage 7 "DOCTOR" "hello" none "t1" "TEXT")
        (realtimeInsert "P-1024" (mkNewMessage 7 "DOCTOR" "hello" none "t1" "TEXT") [p1024, p5050])
      = realtimeInsert "P-1024" (mkNewMessage 7 "DOCTOR" "hello" none "t1" "TEXT") [p1024, p5050] ∧
    realtimeMergeRecord "P-1024" (mkNewMessage 7 "DOCTOR" "hello" none "t1" "TEXT") p1024
      = { p1024 with
          messages := p1024.messages ++ [mkNewMessage 7 "DOCTOR" "hello" none "t1" "TEXT"] } :=
  ⟨(c4_onInsert_idempotent "P-1024" (mkNewMessage 7 "DOCTOR" "hello" none "t1" "TEXT") [p1024, p5050]).1,
   (c4_onInsert_idempotent "P-1024" (mkNewMessage 7 "DOCTOR" "hello" none "t1" "TEXT") [p1024, p5050]).2
     p1024 (by decide) (by decide)⟩

/-! ## Claim C6 : unknown patient id -/

/-- Claim C6, counterexample: a submit whose id references no existing
record is a silent no-op in the second revision, returning the state
unchanged with no rejection, rather than failing with an InvalidPatient
error. -/
theorem c6_silent_noop_counterexample :
    submitV2 (some doctorUser) (some "P-9999") "hello" "TEXT" "DOCTOR" none 500 "t9"
        [p1024, p5050]
      = ([p1024, p5050], SubmitOutcome.silentNoOp) ∧
    SubmitOutcome.silentNoOp ≠ SubmitOutcome.rejected "InvalidPatient" := by
  decide

/-- Claim C6, amended: a submit call whose patient id does not reference
an existing record neither raises nor rejects: the second revision takes
the bare return and leaves the state untouched, and the first revision
leaves every patient record unchanged as well (its optimistic map
matches nothing and the analysis lookup fails). -/
theorem c6_unknown_patient_silent (cu : Option User) (tid : String)
    (content type senderRole : String) (fn : Option String) (clock clock2 : Nat)
    (now : String) (collab : Except Unit RawAnalysisData) (pats : List Patient)
    (hv2 : activePatientV2 cu (some tid) pats = none)
    (hv1 : ∀ p ∈ pats, p.id ≠ tid) :
    submitV2 cu (some tid) content type senderRole fn clock now pats
      = (pats, SubmitOutcome.silentNoOp) ∧
    handleMessageSendV1Run (some tid) cu content type senderRole fn clock clock2 now
        collab pats
      = pats := by
  constructor
  · simp [submitV2, hv2]
  · have hopt : ∀ (m : Message) (ts : String), optimisticAppend tid m ts pats = pats := by
      intro m ts
      have hmap : pats.map (optimisticRecord tid m ts) = pats.map id :=
        List.map_congr_left (fun p hp => by simp [optimisticRecord, hv1 p hp])
      simpa [optimisticAppend] using hmap
    have hfind : pats.find? (fun p => p.id = tid) = none :=
      List.find?_eq_none.mpr (fun p hp => by simp [hv1 p hp])
    by_cases hd : senderRole = "DOCTOR" <;> by_cases ht : type = "TEXT" <;>
      simp [handleMessageSendV1Run, resolveTargetId, hd, ht, hfind, hopt]

/-- Claim C6, witness: the silent no-op at a concrete unknown id. -/
theorem c6_unknown_patient_silent_witness :
    submitV2 (some doctorUser) (some "P-9999") "hi" "TEXT" "DOCTOR" none 500 "t9"
        [p1024, p5050]
      = ([p1024, p5050], SubmitOutcome.silentNoOp) ∧
    handleMessageSendV1Run (some "P-9999") (some doctorUser) "hi" "TEXT" "DOCTOR" none
        500 501 "t9" (Except.error ()) [p1024, p5050]
      = [p1024, p5050] :=
  c6_unknown_patient_silent (some doctorUser) "P-9999" "hi" "TEXT" "DOCTOR" none 500 501
    "t9" (Except.error ()) [p1024, p5050] (by decide) (by decide)

/-! ## Claim C7 : non-text acknowledgment -/

/-- Claim C7, counterexample: in the first revision a patient IMAGE
submission appends no SYSTEM acknowledgment at all: the count of SYSTEM
messages of the record is unchanged by the complete run (only the
processing flag is cleared after the delay). -/
theorem c7_no_ack_counterexample :
    countSystem ((handleMessageSendV1Run (some "P-1024") (some patientUser) "photo"
        "IMAGE" "PATIENT" (some "img.png") 300 301 "t5" (Except.error ())
        [p1024, p5050]).headD p1024).messages
      = countSystem p1024.messages ∧
    ((handleMessageSendV1Run (some "P-1024") (some patientUser) "photo" "IMAGE"
        "PATIENT" (some "img.png") 300 301 "t5" (Except.error ())
        [p1024, p5050]).headD p1024).messages.length
      = p1024.messages.length + 1 := by
  decide

/-- Claim C7, amended: a patient-authored non-text submission bypasses
the analysis collaborator entirely in both revisions (the run is
independent of the collaborator response); the second revision then
appends exactly one SYSTEM acknowledgment after the delay, while the
first revision performs no append beyond the optimistic one and leaves
the SYSTEM message count unchanged. -/
theorem c7_nontext_paths (aid : Option String) (cu : Option User) (content type : String)
    (fn : Option String) (clock clock2 : Nat) (now : String)
    (collabA collabB : Except Unit RawAnalysisData) (pats : List Patient)
    (tid : String) (tp : Patient)
    (htype : type = "IMAGE" ∨ type = "DOCUMENT")
    (h1 : resolveTargetId aid cu = some tid)
    (h2 : activePatientV2 cu aid pats = some tp) :
    handleMessageSendV1Run aid cu content type "PATIENT" fn clock clock2 now collabA pats
      = handleMessageSendV1Run aid cu content type "PATIENT" fn clock clock2 now collabB pats ∧
    handleMessageSendV2Run cu aid content type "PATIENT" fn clock clock2 now collabA pats
      = handleMessageSendV2Run cu aid content type "PATIENT" fn clock clock2 now collabB pats ∧
    handleMessageSendV1Run aid cu content type "PATIENT" fn clock clock2 now collabA pats
      = optimisticAppend tid (mkNewMessage clock "PATIENT" content fn now type) now pats ∧
    countSystem (optimisticRecord tid (mkNewMessage clock "PATIENT" content fn now type)
        now tp).messages
      = countSystem tp.messages ∧
    handleMessageSendV2Run cu aid content type "PATIENT" fn clock clock2 now collabA pats
      = replaceById tp.id
          (mkAckPatient
            (mkUpdatedPatient tp (mkNewMessage clock "PATIENT" content fn now type) now)
            (mkSystemMessage clock2 (nonTextAckContent type) now))
          (replaceById tp.id
            (mkUpdatedPatient tp (mkNewMessage clock "PATIENT" content fn now type) now)
            pats) ∧
    countSystem (mkAckPatient
        (mkUpdatedPatient tp (mkNewMessage clock "PATIENT" content fn now type) now)
        (mkSystemMessage clock2 (nonTextAckContent type) now)).messages
      = countSystem tp.messages + 1 := by
  have ht : type ≠ "TEXT" := by
    rcases htype with h | h <;> subst h <;> decide
  refine ⟨?_, ?_, ?_, ?_, ?_, ?_⟩
  · simp [handleMessageSendV1Run, h1, ht]
  · simp [handleMessageSendV2Run, h2, ht]
  · simp [handleMessageSendV1Run, h1, ht]
  · by_cases hp : tp.id = tid <;>
      simp [optimisticRecord, hp, countSystem, List.filter_append, mkNewMessage]
  · simp [handleMessageSendV2Run, h2, ht]
  · simp [mkAckPatient, mkUpdatedPatient, countSystem, List.filter_append,
      mkNewMessage, mkSystemMessage]

/-- Claim C7, witness: the two runs at a concrete IMAGE submission. -/
theorem c7_nontext_paths_witness :
    handleMessageSendV1Run (some "P-1024") (some patientUser) "photo" "IMAGE" "PATIENT"
        (some "img.png") 300 301 "t5" (Except.error ()) [p1024, p5050]
      = handleMessageSendV1Run (some "P-1024") (some patientUser) "photo" "IMAGE" "PATIENT"
        (some "img.png") 300 301 "t5" (Except.ok c3Raw) [p1024, p5050] ∧
    countSystem (mkAckPatient
        (mkUpdatedPatient p1024
          (mkNewMessage 300 "PATIENT" "photo" (some "img.png") "t5" "IMAGE") "t5")
        (mkSystemMessage 301 (nonTextAckContent "IMAGE") "t5")).messages
      = countSystem p1024.messages + 1 :=
  ⟨(c7_nontext_paths (some "P-1024") (some patientUser) "photo" "IMAGE" (some "img.png")
      300 301 "t5" (Except.error ()) (Except.ok c3Raw) [p1024, p5050] "P-1024" p1024
      (Or.inl rfl) (by decide) (by decide)).1,
   (c7_nontext_paths (some "P-1024") (some patientUser) "photo" "IMAGE" (some "img.png")
      300 301 "t5" (Except.error ()) (Except.ok c3Raw) [p1024, p5050] "P-1024" p1024
      (Or.inl rfl) (by decide) (by decide)).2.2.2.2.2⟩

/-! ## Claim C8 : vitals merge is pure append -/

/-- Claim C8: in either revision, merging extracted readings into a
record is a pure append: the vitals history afterwards is exactly the
prior history followed by the new readings, so its length grows by their
count and every prior entry is retained unchanged and in order, also for
readings identical to existing entries. -/
theorem c8_vitals_append (tid : String) (sys : Message) (ins : ClinicalInsight)
    (vs : List VitalSign) (p up : Patient) (h : p.id = tid) :
    (applyInsightRecord tid sys ins vs p).vitalsHistory = p.vitalsHistory ++ vs ∧
    ((applyInsightRecord tid sys ins vs p).vitalsHistory).length
      = p.vitalsHistory.length + vs.length ∧
    (mkFinalPatient up sys ins vs).vitalsHistory = up.vitalsHistory ++ vs ∧
    ((mkFinalPatient up sys ins vs).vitalsHistory).length
      = up.vitalsHistory.length + vs.length := by
  refine ⟨?_, ?_, rfl, by simp [mkFinalPatient]⟩ <;> simp [applyInsightRecord, h]

/-- Claim C8, witness: merging two readings identical to an existing
entry still appends both. -/
theorem c8_vitals_append_witness :
    (applyInsightRecord "P-1024" c2Sys c2Res.insight [glucoseReading, glucoseReading]
        p1024).vitalsHistory
      = p1024.vitalsHistory ++ [glucoseReading, glucoseReading] ∧
    ((applyInsightRecord "P-1024" c2Sys c2Res.insight [glucoseReading, glucoseReading]
        p1024).vitalsHistory).length
      = p1024.vitalsHistory.length + 2 :=
  ⟨(c8_vitals_append "P-1024" c2Sys c2Res.insight [glucoseReading, glucoseReading]
      p1024 p1024 rfl).1,
   (c8_vitals_append "P-1024" c2Sys c2Res.insight [glucoseReading, glucoseReading]
      p1024 p1024 rfl).2.1⟩

/-! ## Claim C9 : id freshness -/

/-- Claim C9, counterexample: two distinct submit calls sharing the same
millisecond clock construct distinct messages with identical ids, and a
SYSTEM reply built at clock 999 collides with a submit at clock 1000. -/
theorem c9_id_collision_counterexample :
    (mkNewMessage 1000 "PATIENT" "sugar 150" none "t1" "TEXT").id
      = (mkNewMessage 1000 "PATIENT" "bp 120 over 80" none "t2" "TEXT").id ∧
    mkNewMessage 1000 "PATIENT" "sugar 150" none "t1" "TEXT"
      ≠ mkNewMessage 1000 "PATIENT" "bp 120 over 80" none "t2" "TEXT" ∧
    (mkSystemMessage 999 "Noted." "t0").id
      = (mkNewMessage 1000 "PATIENT" "sugar 150" none "t1" "TEXT").id := by
  decide

/-- Claim C9, amended: a submit call assigns as id the decimal string of
the millisecond clock at construction time, and a SYSTEM reply the
decimal string of its clock plus one; the id is therefore not fresh:
any two constructions sharing the same clock value receive identical
ids, whatever their contents. -/
theorem c9_id_scheme (clock : Nat) (r1 c1 : String) (f1 : Option String) (t1 k1 : String)
    (r2 c2 : String) (f2 : Option String) (t2 k2 : String) (sc st : String) :
    (mkNewMessage clock r1 c1 f1 t1 k1).id = toString clock ∧
    (mkSystemMessage clock sc st).id = toString (clock + 1) ∧
    (mkNewMessage clock r1 c1 f1 t1 k1).id = (mkNewMessage clock r2 c2 f2 t2 k2).id ∧
    (mkSystemMessage clock sc st).id = (mkNewMessage (clock + 1) r2 c2 f2 t2 k2).id :=
  ⟨rfl, rfl, rfl, rfl⟩

/-- Claim C9, witness: the id scheme at concrete clocks and contents. -/
theorem c9_id_scheme_witness :
    (mkNewMessage 1700 "PATIENT" "a" none "t1" "TEXT").id = toString 1700 ∧
    (mkSystemMessage 1700 "b" "t2").id = toString 1701 ∧
    (mkNewMessage 1700 "PATIENT" "a" none "t1" "TEXT").id
      = (mkNewMessage 1700 "DOCTOR" "c" none "t3" "TEXT").id ∧
    (mkSystemMessage 1700 "b" "t2").id
      = (mkNewMessage 1701 "DOCTOR" "c" none "t3" "TEXT").id :=
  c9_id_scheme 1700 "PATIENT" "a" none "t1" "TEXT" "DOCTOR" "c" none "t3" "TEXT" "b" "t2"

/-! ## Claim C10 : frame property -/

/-- Claim C10: each pipeline state update leaves every record whose id
differs from the target id completely unchanged: the optimistic append,
the insight application, the realtime merge and the whole-record
replacement of the second revision. -/
theorem c10_frame_property (tid aid : String) (m rm sys : Message) (now : String)
    (ins : ClinicalInsight) (vs : List VitalSign) (newP : Patient) (st : List Patient) :
    List.Forall₂ (fun p q => p.id ≠ tid → q = p) st (optimisticAppend tid m now st) ∧
    List.Forall₂ (fun p q => p.id ≠ tid → q = p) st (applyInsight tid sys ins vs st) ∧
    List.Forall₂ (fun p q => p.id ≠ aid → q = p) st (realtimeInsert aid rm st) ∧
    List.Forall₂ (fun p q => p.id ≠ tid → q = p) st (replaceById tid newP st) := by
  refine ⟨forall₂_map_self _ ?_ st, forall₂_map_self _ ?_ st,
    forall₂_map_self _ ?_ st, forall₂_map_self _ ?_ st⟩ <;> intro p hneq
  · simp [optimisticRecord, hneq]
  · simp [applyInsightRecord, hneq]
  · simp [realtimeMergeRecord, hneq]
  · simp [hneq]

/-- Claim C10, witness: the frame property at a concrete two-patient
state targeting P-1024. -/
theorem c10_frame_property_witness :
    List.Forall₂ (fun p q => p.id ≠ "P-1024" → q = p) [p1024, p5050]
      (optimisticAppend "P-1024" c2UserMsg "t1" [p1024, p5050]) ∧
    List.Forall₂ (fun p q => p.id ≠ "P-1024" → q = p) [p1024, p5050]
      (applyInsight "P-1024" c2Sys c2Res.insight c2Res.vitals [p1024, p5050]) ∧
    List.Forall₂ (fun p q => p.id ≠ "P-1024" → q = p) [p1024, p5050]
      (realtimeInsert "P-1024" c2RtMsg [p1024, p5050]) ∧
    List.Forall₂ (fun p q => p.id ≠ "P-1024" → q = p) [p1024, p5050]
      (replaceById "P-1024" c2Updated [p1024, p5050]) :=
  c10_frame_property "P-1024" "P-1024" c2UserMsg c2RtMsg c2Sys "t1" c2Res.insight
    c2Res.vitals c2Updated [p1024, p5050]

end PAJR
